import Mathlib

/-!
Verification development for the Dynamic Personal Finance Agent.

This file embeds, as Lean definitions, the parts of the repository that the
verified properties are about:

* the metric primitives and scoring engine of
  `backend/tools/risk_assessment.py` (income volatility, liquidity risk,
  concentration risk, budget-overrun risk, the overall risk score, the
  portfolio-diversification analysis and its six companion sub-analyses);
* the metric primitives and scoring engine of
  `backend/tools/advanced_financial_planner.py` (savings rate, emergency-fund
  months, budget adherence, holding-count diversification, the financial
  health score);
* the workflow-state mutation performed by `RiskAssessmentTool.__call__` and
  `InvestmentAnalyzerTool.__call__`;
* the response envelope construction of `FinanceAgent.process_query`.

Modelling conventions, chosen once and used throughout:

* Python floats are modelled as rationals (`ℚ`); the one genuinely irrational
  operation, the standard deviation inside income volatility, lives in `ℝ`
  via `Real.sqrt`, so the overall risk score is `ℝ`-valued.
* A pandas DataFrame of transactions is `Option (List Transaction)`:
  `none` is Python `None` (the key missing from the context), `some []` is an
  empty frame.  A transaction's date enters the source only through
  `date.dt.to_period("M")`, so a transaction carries its month label directly.
* The investments value is `Option (List Holding)`: `none` is Python `None`
  or a falsy dict, `some l` is `{"investments": l}`.  Dict fields read with
  `.get(key, 0)` are `Option ℚ` fields read through `getD 0`.
* `datetime.now().strftime("%Y-%m")` is an external input and is passed in
  as an explicit `currentMonth : String` parameter.
* Prose description strings that merely interpolate an already-modelled
  number (for example `f"Only {emergency_months:.1f} months ..."`) are not
  reproduced character by character; every branch condition, every number and
  every constant string that selects behaviour is.
-/

namespace FinanceSpec

/-- A transaction record: `date` is modelled by the month period label that
`transactions["date"].dt.to_period("M")` extracts, which is all the source
reads from it.  `amount` is signed: negative = expense. -/
structure Transaction where
  month : String
  amount : ℚ
  category : String
  description : String
deriving DecidableEq

/-- One investment holding.  Only the dict keys the embedded code reads are
modelled; each is optional because the source reads them with
`.get(key, default)`. -/
structure Holding where
  symbol : String
  current_value : Option ℚ
  market_value : Option ℚ
  gain_loss_percentage : Option ℚ
  percentage_change : Option ℚ
deriving DecidableEq

/-- `inv.get("current_value", 0)` -/
def cv (h : Holding) : ℚ := h.current_value.getD 0

/-- One category of a monthly budget; the risk and planner code reads only
`data.get("percentage_used", 0)`. -/
structure CategoryBudget where
  percentage_used : Option ℚ
deriving DecidableEq

/-- One month's budget: its `"categories"` dict as an association list. -/
structure MonthBudget where
  categories : List (String × CategoryBudget)
deriving DecidableEq

/-- The budget payload: its `"monthly_budgets"` dict as an association list
keyed by `YYYY-MM` strings. -/
structure Budget where
  monthly_budgets : List (String × MonthBudget)
deriving DecidableEq

/-- A goal record; the functions embedded here receive goals but never read
them, which the model keeps visible by passing the list through. -/
structure Goal where
  name : String
  target_amount : ℚ
  current_amount : ℚ
deriving DecidableEq

/-- Number of distinct months among the transactions:
`len(transactions["date"].dt.to_period("M").unique())`. -/
def monthCount (ts : List Transaction) : ℕ :=
  ((ts.map (fun x => x.month)).dedup).length

/-- Sum of the positive amounts:
`transactions[transactions["amount"] > 0]["amount"].sum()`. -/
def incomeSum (ts : List Transaction) : ℚ :=
  ((ts.filter (fun x => decide (0 < x.amount))).map (fun x => x.amount)).sum

/-- Absolute sum of the negative amounts:
`abs(transactions[transactions["amount"] < 0]["amount"].sum())`. -/
def expensesAbs (ts : List Transaction) : ℚ :=
  |((ts.filter (fun x => decide (x.amount < 0))).map (fun x => x.amount)).sum|

/-- Average monthly expenses: `expensesAbs / max(1, #distinct months)`. -/
def monthlyExpenses (ts : List Transaction) : ℚ :=
  expensesAbs ts / max 1 (monthCount ts : ℚ)

/-- Total portfolio value as the risk/planner modules compute it:
`sum(inv.get("current_value", 0) for inv in investments["investments"])`. -/
def totalCurrentValue (l : List Holding) : ℚ :=
  (l.map cv).sum

/-- The liquid-assets estimate both emergency-fund functions build: a fixed
fraction of total investment value when holdings are present, else 0. -/
def liquidAssets (frac : ℚ) (i : Option (List Holding)) : ℚ :=
  match i with
  | some l => if l = [] then 0 else totalCurrentValue l * frac
  | none => 0

/-- `_calculate_emergency_fund_months` of `risk_assessment.py`: liquid assets
are 30% of total investment value; 0 when there are no transactions or no
positive monthly expenses. -/
def emergencyFundMonthsRisk (t : Option (List Transaction)) (i : Option (List Holding)) : ℚ :=
  match t with
  | none => 0
  | some ts =>
    if ts = [] then 0
    else if 0 < monthlyExpenses ts then liquidAssets (3 / 10) i / monthlyExpenses ts
    else 0

/-- `_assess_emergency_fund` of `advanced_financial_planner.py`: same shape
but liquid assets are 50% of total investment value. -/
def emergencyFundMonthsPlanner (t : Option (List Transaction)) (i : Option (List Holding)) : ℚ :=
  match t with
  | none => 0
  | some ts =>
    if ts = [] then 0
    else if monthlyExpenses ts ≤ 0 then 0
    else liquidAssets (1 / 2) i / monthlyExpenses ts

/-- `_calculate_liquidity_risk`: the emergency-fund tier mapped to a risk
factor (≥6 months → 0.1, ≥3 → 0.3, ≥1 → 0.6, else 1.0). -/
def liquidityRisk (t : Option (List Transaction)) (i : Option (List Holding)) : ℚ :=
  let m := emergencyFundMonthsRisk t i
  if 6 ≤ m then 1 / 10
  else if 3 ≤ m then 3 / 10
  else if 1 ≤ m then 3 / 5
  else 1

/-- Maximum of a list of rationals, `max(...)` over a nonempty generator;
0 for the empty list (the source only applies it to nonempty lists). -/
def qListMax : List ℚ → ℚ
  | [] => 0
  | x :: xs => xs.foldl max x

/-- `max(inv.get("current_value", 0) for inv in ...)` -/
def maxCurrentValue (l : List Holding) : ℚ :=
  qListMax (l.map cv)

/-- `_calculate_concentration_risk`: largest holding over total value, with
the source's guards (0 on an empty list or non-positive total). -/
def concentrationRisk (l : List Holding) : ℚ :=
  if l = [] then 0
  else if totalCurrentValue l ≤ 0 then 0
  else maxCurrentValue l / totalCurrentValue l

/-- `_calculate_budget_risk` (the `transactions` parameter is unused by the
source body): fraction of the current month's categories whose
`percentage_used` exceeds 100. `currentMonth` stands for
`datetime.now().strftime("%Y-%m")`. -/
def budgetRisk (currentMonth : String) (b : Option Budget) : ℚ :=
  match b with
  | none => 0
  | some bb =>
    if bb.monthly_budgets = [] then 0
    else
      let cur := ((bb.monthly_budgets.lookup currentMonth).getD ⟨[]⟩)
      if cur.categories = [] then 0
      else
        ((cur.categories.filter
            (fun c => decide (100 < c.2.percentage_used.getD 0))).length : ℚ) /
          (cur.categories.length : ℚ)

/-- Monthly income aggregates:
`transactions[amount > 0].groupby(period).sum()`, one entry per distinct
month that has a positive transaction. -/
def monthlyIncomeList (ts : List Transaction) : List ℚ :=
  (((ts.filter (fun x => decide (0 < x.amount))).map (fun x => x.month)).dedup).map
    (fun m =>
      ((ts.filter (fun x => decide (0 < x.amount) && (x.month == m))).map
        (fun x => x.amount)).sum)

/-- `_calculate_income_volatility`: coefficient of variation
(sample standard deviation over mean) of the monthly income aggregates; 0
with fewer than 2 months of income data or a non-positive mean. -/
noncomputable def incomeVolatility (t : Option (List Transaction)) : ℝ :=
  match t with
  | none => 0
  | some ts =>
    let xs := monthlyIncomeList ts
    if xs.length < 2 then 0
    else
      let n : ℚ := xs.length
      let mean : ℚ := xs.sum / n
      let variance : ℚ := ((xs.map (fun x => (x - mean) ^ 2)).sum) / (n - 1)
      if 0 < mean then Real.sqrt (variance : ℝ) / (mean : ℝ) else 0

/-- The income-volatility contribution of the overall risk score, guarded by
`if transactions is not None and not transactions.empty`. -/
noncomputable def volContribution (t : Option (List Transaction)) : ℝ :=
  match t with
  | some ts => if ts = [] then 0 else min 25 (incomeVolatility t * 100)
  | none => 0

/-- The concentration-risk contribution, guarded by `if investments:`. -/
def concContribution (i : Option (List Holding)) : ℝ :=
  match i with
  | some l => min 25 ((concentrationRisk l : ℝ) * 25)
  | none => 0

/-- The budget-overrun contribution, guarded by
`if budget and transactions is not None`. -/
def budContribution (currentMonth : String) (b : Option Budget)
    (t : Option (List Transaction)) : ℝ :=
  match b, t with
  | some bb, some _ => min 25 ((budgetRisk currentMonth (some bb) : ℝ) * 25)
  | _, _ => 0

/-- `_calculate_overall_risk_score`: sum of the four risk contributions,
each capped at 25, with the source's presence guards, clamped by
`min(100, ...)`. -/
noncomputable def overallRiskScore (currentMonth : String) (t : Option (List Transaction))
    (b : Option Budget) (i : Option (List Holding)) (g : List Goal) : ℝ :=
  min 100 (volContribution t + min 25 ((liquidityRisk t i : ℝ) * 25) +
    concContribution i + budContribution currentMonth b t)

/-- Modelled from the spec's words, for comparison with `overallRiskScore`
(the implementation): the Overall Risk Score as the unconditional sum of the
four capped-at-25 contributions — income volatility×100, liquidity-risk
factor×25, concentration risk×25, budget-overrun ratio×25 — clamped to 100. -/
noncomputable def specRiskScore (currentMonth : String) (t : Option (List Transaction))
    (b : Option Budget) (i : Option (List Holding)) (g : List Goal) : ℝ :=
  min 100 (min 25 (incomeVolatility t * 100)
    + min 25 ((liquidityRisk t i : ℝ) * 25)
    + min 25 ((concentrationRisk (i.getD []) : ℝ) * 25)
    + min 25 ((budgetRisk currentMonth b : ℝ) * 25))

/-- `_calculate_savings_rate`: `max(0, (income − expenses)/income)`, with 0
for no data or non-positive income. -/
def savingsRate (t : Option (List Transaction)) : ℚ :=
  match t with
  | none => 0
  | some ts =>
    if ts = [] then 0
    else if incomeSum ts ≤ 0 then 0
    else max 0 ((incomeSum ts - expensesAbs ts) / incomeSum ts)

/-- The emergency-fund sub-score tiers of `_calculate_financial_health_score`:
≥6 months → 25, ≥3 → 15, ≥1 → 10, else 0. -/
def emergencyTier (m : ℚ) : ℚ :=
  if 6 ≤ m then 25 else if 3 ≤ m then 15 else if 1 ≤ m then 10 else 0

/-- The savings-rate sub-score tiers: ≥20% → 25, ≥15% → 20, ≥10% → 15,
≥5% → 10, else 0. -/
def savingsTier (r : ℚ) : ℚ :=
  if 1 / 5 ≤ r then 25
  else if 3 / 20 ≤ r then 20
  else if 1 / 10 ≤ r then 15
  else if 1 / 20 ≤ r then 10
  else 0

/-- Per-category budget-adherence points: `min(100, 110 − pct)` when within
budget, `max(0, 50 − (pct − 100))` when over. -/
def categoryAdherence (pct : ℚ) : ℚ :=
  if pct ≤ 100 then min 100 (110 - pct) else max 0 (50 - (pct - 100))

/-- `_calculate_budget_adherence_score`: average of the per-category points
for the current month, scaled to at most 25 by dividing by 4. -/
def budgetAdherence (currentMonth : String) (b : Budget) : ℚ :=
  let cur := ((b.monthly_budgets.lookup currentMonth).getD ⟨[]⟩)
  if cur.categories = [] then 0
  else
    (((cur.categories.map
        (fun c => categoryAdherence (c.2.percentage_used.getD 0))).sum) /
      max 1 (cur.categories.length : ℚ)) / 4

/-- `_calculate_diversification_score` of the planner: holding-count tiers
(≥10 → 25, ≥5 → 20, ≥3 → 15, else 10), 0 on the empty list. -/
def holdingCountScore (l : List Holding) : ℚ :=
  if l = [] then 0
  else if 10 ≤ l.length then 25
  else if 5 ≤ l.length then 20
  else if 3 ≤ l.length then 15
  else 10

/-- The investment-diversification branch of the health score: with holdings
present, `min(25, holdingCountScore)`; otherwise the source adds a flat 5. -/
def investmentContribution (i : Option (List Holding)) : ℚ :=
  match i with
  | some l => if l = [] then 5 else min 25 (holdingCountScore l)
  | none => 5

/-- The budget-adherence branch of the health score: only added when a
budget and a nonempty transaction frame are both present, capped at 25. -/
def budgetScoreContribution (currentMonth : String) (b : Option Budget)
    (t : Option (List Transaction)) : ℚ :=
  match b, t with
  | some bb, some ts => if ts = [] then 0 else min 25 (budgetAdherence currentMonth bb)
  | _, _ => 0

/-- `_calculate_financial_health_score`: the four sub-scores summed and
clamped by `min(100, ...)`. -/
def financialHealthScore (currentMonth : String) (t : Option (List Transaction))
    (b : Option Budget) (i : Option (List Holding)) (g : List Goal) : ℚ :=
  min 100 (emergencyTier (emergencyFundMonthsPlanner t i) + savingsTier (savingsRate t) +
    budgetScoreContribution currentMonth b t + investmentContribution i)

/-- Whether `pat` starts the character list (first argument is the pattern). -/
def charStarts : List Char → List Char → Bool
  | [], _ => true
  | _ :: _, [] => false
  | a :: as, b :: bs => a == b && charStarts as bs

/-- Whether `pat` occurs inside the character list. -/
def charSub : List Char → List Char → Bool
  | pat, [] => charStarts pat []
  | pat, c :: rest => charStarts pat (c :: rest) || charSub pat rest

/-- Python's substring test `pat in s`. -/
def strContains (s pat : String) : Bool :=
  charSub pat.toList s.toList

/-- The simple symbol classification of `_analyze_portfolio_diversification`:
"bond"/"treasury" → bonds; "stock"/"equity"/"etf" → stocks; else other. -/
inductive AssetClass where
  | bonds
  | stocks
  | other
deriving DecidableEq

/-- Classify one holding by substrings of its lowercased symbol, in the
source's branch order. -/
def assetClass (h : Holding) : AssetClass :=
  let s := h.symbol.toLower
  if strContains s "bond" || strContains s "treasury" then .bonds
  else if strContains s "stock" || strContains s "equity" || strContains s "etf" then .stocks
  else .other

/-- The asset-allocation percentages (values over total, ×100; all 0 when the
total is not positive).  The Python dict only materialises the classes that
occur; a class that does not occur reads back as the same 0 that
`allocation.get(k, 0)` yields, which is what the code consumes. -/
structure Allocation where
  bonds : ℚ
  stocks : ℚ
  other : ℚ
deriving DecidableEq

/-- Sum of current values of the holdings in one asset class. -/
def classValue (l : List Holding) (a : AssetClass) : ℚ :=
  ((l.filter (fun h => decide (assetClass h = a))).map cv).sum

/-- Percentage of the portfolio in one asset class. -/
def classPct (l : List Holding) (a : AssetClass) : ℚ :=
  if 0 < totalCurrentValue l then classValue l a / totalCurrentValue l * 100 else 0

/-- The largest single position as a percentage of the portfolio
(`max(cv/total*100)` when the total is positive, else 0). -/
def maxPositionPct (l : List Holding) : ℚ :=
  if 0 < totalCurrentValue l then
    qListMax (l.map (fun h => cv h / totalCurrentValue l * 100))
  else 0

/-- `_get_diversification_recommendations`, in the source's emission order. -/
def divRecommendations (a : Allocation) (numHoldings : ℕ) : List String :=
  (if 80 < a.stocks then ["Consider adding bonds for stability (target 10-30%)"] else []) ++
  (if 50 < a.bonds then ["Consider reducing bond allocation for growth (target 20-40%)"] else []) ++
  (if numHoldings < 5 then ["Increase number of holdings for better diversification"] else []) ++
  (if a.other = 0 then ["Consider alternative investments (REITs, commodities)"] else [])

/-- The successful result of `_analyze_portfolio_diversification`. -/
structure DivResult where
  asset_allocation : Allocation
  total_holdings : ℕ
  largest_position_pct : ℚ
  diversification_score : ℚ
  recommendations : List String
deriving DecidableEq

/-- The value `_analyze_portfolio_diversification` returns: an `{"error"}`
payload on an empty holdings list, otherwise the analysis dict. -/
inductive DivAnalysis where
  | err (msg : String)
  | ok (r : DivResult)
deriving DecidableEq

/-- The diversification score of a `DivAnalysis`, when it has one. -/
def divScoreOf : DivAnalysis → Option ℚ
  | .err _ => none
  | .ok r => some r.diversification_score

/-- `_analyze_portfolio_diversification`: start from 100, subtract 30 (or 15)
for a >40% (or >25%) largest position, subtract 20 (or 10) for fewer than 5
(or 10) holdings, floor at 0. -/
def analyzePortfolioDiversification (l : List Holding) : DivAnalysis :=
  if l = [] then .err "No investment data"
  else
    let alloc : Allocation :=
      ⟨classPct l .bonds, classPct l .stocks, classPct l .other⟩
    let mx := maxPositionPct l
    let score : ℚ :=
      100 - (if 40 < mx then 30 else if 25 < mx then 15 else 0)
          - (if l.length < 5 then 20 else if l.length < 10 then 10 else 0)
    .ok ⟨alloc, l.length, mx, max 0 score, divRecommendations alloc l.length⟩

/-- A `{score, description}` entry of `_analyze_risk_categories`. -/
structure ScoredCategory where
  score : ℚ
  description : String
deriving DecidableEq

/-- The five risk categories, all initialised to `{0, ""}` and selectively
overwritten. -/
structure RiskCategories where
  market_risk : ScoredCategory
  credit_risk : ScoredCategory
  liquidity_risk : ScoredCategory
  operational_risk : ScoredCategory
  inflation_risk : ScoredCategory
deriving DecidableEq

/-- Market-risk points per holding: 20 for |gain/loss %| > 20, 10 for > 10. -/
def marketRiskPoints (h : Holding) : ℚ :=
  let p := h.gain_loss_percentage.getD 0
  if 20 < |p| then 20 else if 10 < |p| then 10 else 0

/-- Number of distinct income sources: unique descriptions among the
positive-amount transactions. -/
def incomeSourceCount (ts : List Transaction) : ℕ :=
  (((ts.filter (fun x => decide (0 < x.amount))).map (fun x => x.description)).dedup).length

/-- `_analyze_risk_categories`: market risk from per-holding volatility,
liquidity risk as `liquidityRisk × 100`, credit risk from the expense/income
ratio, operational risk untouched, inflation risk 70 when cash-heavy
(equity exposure ≤ 40% of holdings) else 30. -/
def analyzeRiskCategories (t : Option (List Transaction)) (b : Option Budget)
    (i : Option (List Holding)) : RiskCategories :=
  let market : ScoredCategory :=
    match i with
    | some l =>
      if l = [] then ⟨0, ""⟩
      else ⟨min 100 ((l.map marketRiskPoints).sum), "Risk from market price fluctuations"⟩
    | none => ⟨0, ""⟩
  let liquidity : ScoredCategory :=
    ⟨liquidityRisk t i * 100, "Risk of not having enough cash for emergencies"⟩
  let credit : ScoredCategory :=
    match t with
    | some ts =>
      if ts = [] then ⟨0, ""⟩
      else if 0 < incomeSum ts then
        (if 9 / 10 < expensesAbs ts / incomeSum ts then ⟨80, ""⟩
         else if 4 / 5 < expensesAbs ts / incomeSum ts then ⟨60, ""⟩
         else ⟨20, ""⟩)
      else ⟨0, ""⟩
    | none => ⟨0, ""⟩
  let cashHeavy : Bool :=
    match i with
    | some l =>
      if l = [] then true
      else !(decide ((l.length : ℚ) * (2 / 5) <
        ((l.filter (fun h => strContains h.symbol.toLower "stock")).length : ℚ)))
    | none => true
  let inflation : ScoredCategory :=
    ⟨if cashHeavy then 70 else 30, "Risk of purchasing power erosion"⟩
  ⟨market, credit, liquidity, ⟨0, ""⟩, inflation⟩

/-- A vulnerability entry; its prose description (which, in one case,
interpolates the emergency-fund months figure) is determined by the same
inputs and not repeated here. -/
structure Vulnerability where
  vtype : String
  severity : String
deriving DecidableEq

/-- The `_assess_vulnerabilities` payload. -/
structure VulnAssessment where
  vulnerabilities : List Vulnerability
  total_count : ℕ
deriving DecidableEq

/-- `_assess_vulnerabilities`: single income source, thin emergency fund
(severity high below 1 month, medium below 3), and portfolio concentration
above 0.4. -/
def assessVulnerabilities (t : Option (List Transaction)) (i : Option (List Holding)) :
    VulnAssessment :=
  let v1 : List Vulnerability :=
    match t with
    | some ts =>
      if ts = [] then []
      else if incomeSourceCount ts ≤ 1 then [⟨"single_income_source", "high"⟩] else []
    | none => []
  let em := emergencyFundMonthsRisk t i
  let v2 : List Vulnerability :=
    if em < 3 then [⟨"insufficient_emergency_fund", if em < 1 then "high" else "medium"⟩]
    else []
  let v3 : List Vulnerability :=
    match i with
    | some l =>
      if l = [] then []
      else if 2 / 5 < concentrationRisk l then [⟨"investment_concentration", "medium"⟩]
      else []
    | none => []
  let vs := v1 ++ v2 ++ v3
  ⟨vs, vs.length⟩

/-- The income-loss stress test (`scenario` is the constant
"Complete income loss"). -/
structure IncomeLossTest where
  survival_months : ℚ
  monthly_burn_rate : ℚ
  assessment : String
deriving DecidableEq

/-- The market-crash stress test (`loss_percentage` is the constant 30). -/
structure MarketCrashTest where
  current_value : ℚ
  stressed_value : ℚ
  loss_amount : ℚ
deriving DecidableEq

/-- The high-inflation stress test. -/
structure InflationTest where
  current_expenses : ℚ
  inflated_expenses : ℚ
  additional_cost : ℚ
deriving DecidableEq

/-- The `_perform_stress_tests` payload: each test present only when its
data is. -/
structure StressTests where
  income_loss : Option IncomeLossTest
  market_crash : Option MarketCrashTest
  high_inflation : Option InflationTest
deriving DecidableEq

/-- `_perform_stress_tests`: survival months under income loss, a 30%
portfolio decline, and a 10% expense inflation. -/
def performStressTests (t : Option (List Transaction)) (i : Option (List Holding)) :
    StressTests :=
  let il : Option IncomeLossTest :=
    match t with
    | some ts =>
      if ts = [] then none
      else
        let em := emergencyFundMonthsRisk t i
        some ⟨em, monthlyExpenses ts, if em < 3 then "critical" else "manageable"⟩
    | none => none
  let mc : Option MarketCrashTest :=
    match i with
    | some l =>
      if l = [] then none
      else
        let cur := totalCurrentValue l
        some ⟨cur, cur * (7 / 10), cur - cur * (7 / 10)⟩
    | none => none
  let inf : Option InflationTest :=
    match t with
    | some ts =>
      if ts = [] then none
      else
        let ce := expensesAbs ts
        some ⟨ce, ce * (11 / 10), ce * (11 / 10) - ce⟩
    | none => none
  ⟨il, mc, inf⟩

/-- A mitigation strategy; the prose `description` (a function of the same
inputs) is not repeated, the selecting fields and constant action items are. -/
structure Strategy where
  category : String
  priority : String
  strategy : String
  action_items : List String
deriving DecidableEq

/-- `_generate_risk_mitigation_strategies`, in the source's emission order:
emergency fund below 6 months, fewer than 5 holdings, a single income
source, and budget risk above 0.3. -/
def mitigationStrategies (currentMonth : String) (t : Option (List Transaction))
    (b : Option Budget) (i : Option (List Holding)) : List Strategy :=
  let s1 : List Strategy :=
    if emergencyFundMonthsRisk t i < 6 then
      [⟨"liquidity", "high", "Build Emergency Fund",
        ["Set up automatic savings for emergency fund",
         "Consider high-yield savings account",
         "Target $500-1000 monthly contributions"]⟩]
    else []
  let s2 : List Strategy :=
    match i with
    | some l =>
      if l = [] then []
      else if l.length < 5 then
        [⟨"diversification", "medium", "Increase Portfolio Diversification",
          ["Consider index funds for broad market exposure",
           "Add international investments",
           "Include bonds for stability"]⟩]
      else []
    | none => []
  let s3 : List Strategy :=
    match t with
    | some ts =>
      if ts = [] then []
      else if incomeSourceCount ts ≤ 1 then
        [⟨"income", "medium", "Diversify Income Sources",
          ["Develop side income streams",
           "Build marketable skills",
           "Consider passive income investments"]⟩]
      else []
    | none => []
  let s4 : List Strategy :=
    match b, t with
    | some bb, some _ =>
      if 3 / 10 < budgetRisk currentMonth (some bb) then
        [⟨"budgeting", "medium", "Improve Budget Control",
          ["Review and adjust budget categories",
           "Set up spending alerts",
           "Track expenses weekly"]⟩]
      else []
    | _, _ => []
  s1 ++ s2 ++ s3 ++ s4

/-- An insurance recommendation: its type and the estimated amount (need or
benefit); the prose description interpolating that amount is not repeated. -/
structure InsuranceRec where
  rtype : String
  amount : ℚ
deriving DecidableEq

/-- `_analyze_insurance_needs`: life cover at 10× annual income, disability
at 60% of monthly income, umbrella (capped at 1,000,000) above 100,000 of
assets. -/
def insuranceNeeds (t : Option (List Transaction)) (i : Option (List Holding)) :
    List InsuranceRec :=
  let fromIncome : List InsuranceRec :=
    match t with
    | some ts =>
      if ts = [] then []
      else
        let annual := incomeSum ts * 12 / max 1 (monthCount ts : ℚ)
        [⟨"life_insurance", annual * 10⟩, ⟨"disability_insurance", annual / 12 * (3 / 5)⟩]
    | none => []
  let totalAssets : ℚ :=
    match i with
    | some l => if l = [] then 0 else totalCurrentValue l
    | none => 0
  let umbrella : List InsuranceRec :=
    if 100000 < totalAssets then [⟨"umbrella_insurance", min totalAssets 1000000⟩] else []
  fromIncome ++ umbrella

/-- The full `_comprehensive_risk_analysis` payload.  The six sub-analyses
(score, categories, vulnerabilities, stress tests, mitigation strategies,
insurance estimate) are always present; `diversification_analysis` only when
investments are. -/
structure RiskAnalysis where
  overall_risk_score : ℝ
  risk_categories : RiskCategories
  vulnerability_assessment : VulnAssessment
  stress_test_results : StressTests
  risk_mitigation_strategies : List Strategy
  insurance_recommendations : List InsuranceRec
  diversification_analysis : Option DivAnalysis

/-- `_comprehensive_risk_analysis`: runs the six sub-analyses (and, when
investments are present, the diversification analysis) unconditionally; the
`query` parameter is received and never read, exactly as in the source.
All embedded arithmetic is totalised by the source's own zero-guards, so the
`except` fallback of the source is unreachable in this model. -/
noncomputable def comprehensiveRiskAnalysis (currentMonth : String)
    (t : Option (List Transaction)) (b : Option Budget) (i : Option (List Holding))
    (g : List Goal) (query : String) : RiskAnalysis :=
  { overall_risk_score := overallRiskScore currentMonth t b i g
    risk_categories := analyzeRiskCategories t b i
    vulnerability_assessment := assessVulnerabilities t i
    stress_test_results := performStressTests t i
    risk_mitigation_strategies := mitigationStrategies currentMonth t b i
    insurance_recommendations := insuranceNeeds t i
    diversification_analysis :=
      match i with
      | some l => some (analyzePortfolioDiversification l)
      | none => none }

/-- The data snapshot loaded into `state["context"]`. -/
structure Context where
  transactions : Option (List Transaction)
  budget : Option Budget
  investments : Option (List Holding)
  goals : List Goal

/-- A conversation message (`HumanMessage` / `AIMessage`). -/
inductive Message where
  | human (content : String)
  | ai (content : String)
deriving DecidableEq

/-- Which sub-analysis the investment analyzer's keyword dispatch selected. -/
inductive InvAnalysisKind where
  | performance
  | gainsLosses
  | allocation
  | bestWorst
  | summary
deriving DecidableEq

/-- An entry of `analysis_results`.  The successful investment-analysis
payload is represented by the selected sub-analysis together with the
holdings it is computed from; its further content mixes in external
collaborators (yfinance market data, the wall clock) that are outside this
model. -/
inductive Payload where
  | invError (msg : String)
  | invAnalysis (kind : InvAnalysisKind) (holdings : List Holding)
  | riskAnalysis (r : RiskAnalysis)

/-- The shared `FinanceAgentState` record threaded through one query. -/
structure FinanceAgentState where
  messages : List Message
  user_query : String
  intent : String
  context : Context
  tools_used : List String
  analysis_results : List (String × Payload)
  response : String

/-- Python dict assignment `d[k] = v` on an insertion-ordered dict modelled
as an association list: replace in place when the key exists, append
otherwise. -/
def setEntry (m : List (String × Payload)) (k : String) (v : Payload) :
    List (String × Payload) :=
  if m.any (fun p => p.1 == k) then m.map (fun p => if p.1 == k then (k, v) else p)
  else m ++ [(k, v)]

/-- `RiskAssessmentTool.__call__`: run the comprehensive analysis on the
context and the query, store it under `"risk_assessment"`, and append
`"risk_assessment"` to `tools_used` (unconditionally). -/
noncomputable def riskToolCall (currentMonth : String) (s : FinanceAgentState) :
    FinanceAgentState :=
  let analysis := comprehensiveRiskAnalysis currentMonth s.context.transactions
    s.context.budget s.context.investments s.context.goals s.user_query
  { s with
    analysis_results := (setEntry s.analysis_results "risk_assessment" (.riskAnalysis analysis))
    tools_used := s.tools_used ++ ["risk_assessment"] }

/-- The keyword dispatch of `InvestmentAnalyzerTool.__call__` on the
lowercased query, first match wins. -/
def selectInvKind (q : String) : InvAnalysisKind :=
  if strContains q "performance" || strContains q "how are" || strContains q "doing" then
    .performance
  else if strContains q "gains" || strContains q "losses" || strContains q "profit" then
    .gainsLosses
  else if strContains q "diversification" || strContains q "allocation" ||
      strContains q "breakdown" then
    .allocation
  else if strContains q "best" || strContains q "worst" || strContains q "top" ||
      strContains q "bottom" then
    .bestWorst
  else .summary

/-- `InvestmentAnalyzerTool.__call__`: with falsy investments (`None` or an
empty list) it stores the `{"error": "No investment data available"}` payload
and returns the state immediately — in particular without touching
`tools_used`; otherwise it stores the selected analysis and appends
`"investment_analyzer"` to `tools_used`. -/
def investmentToolCall (s : FinanceAgentState) : FinanceAgentState :=
  match s.context.investments with
  | none =>
    { s with analysis_results := (setEntry s.analysis_results "investment_analyzer"
        (.invError "No investment data available")) }
  | some [] =>
    { s with analysis_results := (setEntry s.analysis_results "investment_analyzer"
        (.invError "No investment data available")) }
  | some l =>
    { s with
      analysis_results := (setEntry s.analysis_results "investment_analyzer"
        (.invAnalysis (selectInvKind s.user_query.toLower) l))
      tools_used := s.tools_used ++ ["investment_analyzer"] }

/-- The response envelope `process_query` returns. -/
structure Envelope where
  response : String
  intent : String
  tools_used : List String
  analysis_results : List (String × Payload)
  conversation_history : List Message

/-- What running the compiled workflow (`self.app.ainvoke`) can come to: a
final state, or an exception.  A raised exception abandons whatever partial
state the workflow had built; the model carries that abandoned state in the
`failed` constructor so that theorems can speak about what was lost. -/
inductive WorkflowOutcome where
  | ok (final : FinanceAgentState)
  | failed (msg : String) (partialState : FinanceAgentState)

/-- The default-valued initial state `process_query` constructs, with the
user message appended to the conversation. -/
def initialState (query : String) (history : List Message) : FinanceAgentState :=
  { messages := history ++ [.human query]
    user_query := query
    intent := ""
    context := ⟨none, none, none, []⟩
    tools_used := []
    analysis_results := []
    response := "" }

/-- `FinanceAgent.process_query`: build the initial state, run the workflow,
and marshal the envelope.  On an exception the envelope is rebuilt from
scratch — `response` is the canned error text around the exception message,
`intent` is the sentinel `"ERROR"`, and `tools_used` / `analysis_results`
are the empty defaults, whatever the abandoned partial state held. -/
def processQuery (run : FinanceAgentState → WorkflowOutcome) (query : String)
    (history : List Message) : Envelope :=
  let init := initialState query history
  match run init with
  | .ok final =>
    { response := final.response
      intent := final.intent
      tools_used := final.tools_used
      analysis_results := final.analysis_results
      conversation_history := final.messages }
  | .failed msg _ =>
    { response := "I encountered an error processing your request: " ++ msg
      intent := "ERROR"
      tools_used := []
      analysis_results := []
      conversation_history := init.messages }

/-! Helper lemmas about the embedded definitions. -/

lemma le_foldl_max (xs : List ℚ) (a : ℚ) : a ≤ xs.foldl max a := by
  induction xs generalizing a with
  | nil => exact le_refl a
  | cons y ys ih => exact le_trans (le_max_left a y) (ih (max a y))

lemma mem_le_foldl_max (xs : List ℚ) (a x : ℚ) (hx : x ∈ xs) : x ≤ xs.foldl max a := by
  induction xs generalizing a with
  | nil => cases hx
  | cons y ys ih =>
    rcases List.mem_cons.mp hx with h | h
    · subst h
      exact le_trans (le_max_right a x) (le_foldl_max ys (max a x))
    · exact ih (max a y) h

lemma mem_le_qListMax (xs : List ℚ) (x : ℚ) (hx : x ∈ xs) : x ≤ qListMax xs := by
  cases xs with
  | nil => cases hx
  | cons y ys =>
    rcases List.mem_cons.mp hx with h | h
    · subst h; exact le_foldl_max ys x
    · exact mem_le_foldl_max ys y x h

lemma qListMax_pos_of_sum_pos (xs : List ℚ) (h : 0 < xs.sum) : 0 < qListMax xs := by
  by_contra hneg
  push_neg at hneg
  have hall : ∀ x ∈ xs, x ≤ 0 := fun x hx => le_trans (mem_le_qListMax xs x hx) hneg
  have : xs.sum ≤ 0 := by
    have := List.sum_le_card_nsmul xs 0 hall
    simpa using this
  linarith

lemma concentrationRisk_nonneg (l : List Holding) : 0 ≤ concentrationRisk l := by
  unfold concentrationRisk
  split_ifs with h1 h2
  · exact le_refl 0
  · exact le_refl 0
  · push_neg at h2
    have hmax : 0 < maxCurrentValue l := by
      unfold maxCurrentValue
      exact qListMax_pos_of_sum_pos _ (by simpa [totalCurrentValue] using h2)
    exact le_of_lt (div_pos hmax h2)

lemma liquidityRisk_nonneg (t : Option (List Transaction)) (i : Option (List Holding)) :
    0 ≤ liquidityRisk t i := by
  unfold liquidityRisk
  dsimp only
  split_ifs <;> norm_num

lemma liquidityRisk_le_one (t : Option (List Transaction)) (i : Option (List Holding)) :
    liquidityRisk t i ≤ 1 := by
  unfold liquidityRisk
  dsimp only
  split_ifs <;> norm_num

lemma budgetRisk_nonneg (cm : String) (b : Option Budget) : 0 ≤ budgetRisk cm b := by
  unfold budgetRisk
  rcases b with _ | bb
  · exact le_refl 0
  · dsimp only
    split_ifs with h1 h2
    · exact le_refl 0
    · exact le_refl 0
    · exact div_nonneg (by positivity) (by positivity)

lemma budgetRisk_le_one (cm : String) (b : Option Budget) : budgetRisk cm b ≤ 1 := by
  unfold budgetRisk
  rcases b with _ | bb
  · norm_num
  · dsimp only
    split_ifs with h1 h2
    · norm_num
    · norm_num
    · set cur := ((bb.monthly_budgets.lookup cm).getD ⟨[]⟩) with hcur
      have hlen : 0 < cur.categories.length := by
        cases hc : cur.categories with
        | nil => exact absurd hc h2
        | cons a as => simp [hc]
      have hle : (cur.categories.filter
          (fun c => decide (100 < c.2.percentage_used.getD 0))).length ≤
          cur.categories.length := List.length_filter_le _ _
      rw [div_le_one (by exact_mod_cast hlen)]
      exact_mod_cast hle

lemma incomeVolatility_nonneg (t : Option (List Transaction)) : 0 ≤ incomeVolatility t := by
  unfold incomeVolatility
  rcases t with _ | ts
  · exact le_refl 0
  · simp only
    split_ifs with h1 h2
    · exact le_refl 0
    · exact div_nonneg (Real.sqrt_nonneg _) (by exact_mod_cast le_of_lt h2)
    · exact le_refl 0

lemma emergencyTier_nonneg (m : ℚ) : 0 ≤ emergencyTier m := by
  unfold emergencyTier; split_ifs <;> norm_num

lemma savingsTier_nonneg (r : ℚ) : 0 ≤ savingsTier r := by
  unfold savingsTier; split_ifs <;> norm_num

lemma categoryAdherence_nonneg (pct : ℚ) : 0 ≤ categoryAdherence pct := by
  unfold categoryAdherence
  split_ifs with h
  · exact le_min (by norm_num) (by linarith)
  · exact le_max_left 0 _

lemma budgetAdherence_nonneg (cm : String) (b : Budget) : 0 ≤ budgetAdherence cm b := by
  unfold budgetAdherence
  dsimp only
  split_ifs with h
  · exact le_refl 0
  · have hsum : 0 ≤ (((((b.monthly_budgets.lookup cm).getD ⟨[]⟩)).categories.map
        (fun c => categoryAdherence (c.2.percentage_used.getD 0))).sum) := by
      apply List.sum_nonneg
      intro x hx
      rcases List.mem_map.mp hx with ⟨c, _, rfl⟩
      exact categoryAdherence_nonneg _
    have hden : (0:ℚ) < max 1 (((((b.monthly_budgets.lookup cm).getD ⟨[]⟩)).categories.length : ℚ)) :=
      lt_of_lt_of_le one_pos (le_max_left _ _)
    exact div_nonneg (div_nonneg hsum (le_of_lt hden)) (by norm_num)

lemma holdingCountScore_ge_ten (l : List Holding) (h : l ≠ []) :
    10 ≤ holdingCountScore l := by
  simp only [holdingCountScore, if_neg h]
  split_ifs <;> norm_num

lemma investmentContribution_ge_five (i : Option (List Holding)) :
    5 ≤ investmentContribution i := by
  rcases i with _ | l
  · norm_num [investmentContribution]
  · simp only [investmentContribution]
    split_ifs with h
    · norm_num
    · exact le_min (by norm_num) (by linarith [holdingCountScore_ge_ten l h])

lemma budgetScoreContribution_nonneg (cm : String) (b : Option Budget)
    (t : Option (List Transaction)) : 0 ≤ budgetScoreContribution cm b t := by
  rcases b with _ | bb <;> rcases t with _ | ts <;>
      simp only [budgetScoreContribution]
  · exact le_refl 0
  · exact le_refl 0
  · exact le_refl 0
  · split_ifs with h
    · exact le_refl 0
    · exact le_min (by norm_num) (budgetAdherence_nonneg cm bb)

/-- The income of a possibly missing transaction frame: the sum of the
positive amounts, 0 when there is no data. -/
def incomeOf (t : Option (List Transaction)) : ℚ := incomeSum (t.getD [])

/-! The claims. -/

/-- C4: `savings_rate` returns `max(0, (income − expenses)/income)` where
income is the sum of positive amounts and expenses the absolute sum of
negative amounts; it returns 0 whenever income ≤ 0 (including the empty
collection), its result always lies in [0, 1], and the division is guarded
so income = 0 never divides. -/
theorem c4_savings_rate_spec (t : Option (List Transaction)) :
    (0 ≤ savingsRate t ∧ savingsRate t ≤ 1) ∧
    (incomeOf t ≤ 0 → savingsRate t = 0) ∧
    (0 < incomeOf t →
      savingsRate t = max 0 ((incomeOf t - expensesAbs (t.getD [])) / incomeOf t)) := by
  rcases t with _ | ts
  · refine ⟨⟨le_refl 0, by norm_num [savingsRate]⟩, fun _ => rfl, fun h => ?_⟩
    simp [incomeOf, incomeSum] at h
  · by_cases hts : ts = []
    · subst hts
      refine ⟨⟨le_refl 0, by norm_num [savingsRate]⟩, fun _ => by simp [savingsRate], fun h => ?_⟩
      simp [incomeOf, incomeSum] at h
    · by_cases hinc : incomeSum ts ≤ 0
      · have h0 : savingsRate (some ts) = 0 := by simp [savingsRate, hts, hinc]
        refine ⟨⟨by rw [h0], by rw [h0]; norm_num⟩, fun _ => h0, fun h => ?_⟩
        simp only [incomeOf, Option.getD] at h
        linarith
      · push_neg at hinc
        have hval : savingsRate (some ts) =
            max 0 ((incomeSum ts - expensesAbs ts) / incomeSum ts) := by
          simp [savingsRate, hts, not_le.mpr hinc]
        constructor
        · constructor
          · rw [hval]; exact le_max_left 0 _
          · rw [hval]
            apply max_le (by norm_num)
            rw [div_le_one hinc]
            have : 0 ≤ expensesAbs ts := abs_nonneg _
            linarith
        · exact ⟨fun h => absurd h (not_le.mpr (by simpa [incomeOf] using hinc)),
            fun _ => by simpa [incomeOf] using hval⟩

/-- C3: for every holdings list the Diversification Score of
`_analyze_portfolio_diversification` lies in [0, 100] and equals 100 minus
30 if the largest position exceeds 40% (15 if it exceeds 25%), minus 20 if
there are fewer than 5 holdings (10 if fewer than 10), floored at 0; the
empty list yields the documented `{"error": "No investment data"}` sentinel
instead of a score. -/
theorem c3_diversification_score_spec (l : List Holding) :
    (l = [] → analyzePortfolioDiversification l = .err "No investment data") ∧
    (∀ r, analyzePortfolioDiversification l = .ok r →
      r.diversification_score =
        max 0 (100 - (if 40 < maxPositionPct l then 30
                      else if 25 < maxPositionPct l then 15 else 0)
                   - (if l.length < 5 then 20
                      else if l.length < 10 then 10 else 0)) ∧
      0 ≤ r.diversification_score ∧ r.diversification_score ≤ 100) := by
  constructor
  · intro h
    simp [analyzePortfolioDiversification, h]
  · intro r hr
    by_cases h : l = []
    · simp [analyzePortfolioDiversification, h] at hr
    · unfold analyzePortfolioDiversification at hr
      rw [if_neg h] at hr
      have hrr := (DivAnalysis.ok.injEq _ _).mp hr.symm
      subst hrr
      refine ⟨rfl, le_max_left 0 _, ?_⟩
      apply max_le (by norm_num)
      have h1 : (0:ℚ) ≤ (if 40 < maxPositionPct l then 30
          else if 25 < maxPositionPct l then 15 else 0) := by split_ifs <;> norm_num
      have h2 : (0:ℚ) ≤ (if l.length < 5 then 20
          else if l.length < 10 then 10 else 0) := by split_ifs <;> norm_num
      linarith

/-- C10: the Financial Health Score is always at least 5, because the
investment-diversification branch contributes a flat 5 exactly when there
are no holdings and at least 10 when any holdings exist, while every other
sub-score is non-negative. -/
theorem c10_health_score_floor (cm : String) (t : Option (List Transaction))
    (b : Option Budget) (i : Option (List Holding)) (g : List Goal) :
    5 ≤ financialHealthScore cm t b i g ∧
    (investmentContribution i = 5 ↔ i.getD [] = []) ∧
    (i.getD [] ≠ [] → 10 ≤ investmentContribution i) := by
  have hinv10 : i.getD [] ≠ [] → 10 ≤ investmentContribution i := by
    intro h
    rcases i with _ | l
    · simp at h
    · simp only [Option.getD] at h
      simp only [investmentContribution, if_neg h]
      exact le_min (by norm_num) (holdingCountScore_ge_ten l h)
  refine ⟨?_, ⟨?_, ?_⟩, hinv10⟩
  · unfold financialHealthScore
    have h1 := emergencyTier_nonneg (emergencyFundMonthsPlanner t i)
    have h2 := savingsTier_nonneg (savingsRate t)
    have h3 := budgetScoreContribution_nonneg cm b t
    have h4 := investmentContribution_ge_five i
    exact le_min (by norm_num) (by linarith)
  · intro h5
    by_contra hne
    have := hinv10 hne
    linarith
  · intro h
    rcases i with _ | l
    · rfl
    · simp only [Option.getD] at h
      simp [investmentContribution, h]

lemma emergencyTier_mono {m1 m2 : ℚ} (h : m1 ≤ m2) : emergencyTier m1 ≤ emergencyTier m2 := by
  unfold emergencyTier
  split_ifs <;> linarith

lemma liquidAssets_mono {frac : ℚ} (hfrac : 0 ≤ frac) {i1 i2 : Option (List Holding)}
    (hlen : (i1.getD []).length = (i2.getD []).length)
    (htot : totalCurrentValue (i1.getD []) ≤ totalCurrentValue (i2.getD [])) :
    liquidAssets frac i1 ≤ liquidAssets frac i2 := by
  rcases i1 with _ | l1 <;> rcases i2 with _ | l2 <;> simp only [liquidAssets, Option.getD] at *
  · exact le_refl 0
  · have hl2 : l2 = [] := List.length_eq_zero.mp hlen.symm
    simp [hl2]
  · have hl1 : l1 = [] := List.length_eq_zero.mp hlen
    simp [hl1]
  · by_cases h1 : l1 = []
    · have h2 : l2 = [] := by
        apply List.length_eq_zero.mp
        rw [← hlen, h1]
        rfl
      simp [h1, h2]
    · have h2 : l2 ≠ [] := by
        intro hc
        apply h1
        apply List.length_eq_zero.mp
        rw [hlen, hc]
        rfl
      rw [if_neg h1, if_neg h2]
      exact mul_le_mul_of_nonneg_right htot hfrac

lemma plannerMonths_mono (t : Option (List Transaction)) {i1 i2 : Option (List Holding)}
    (hlen : (i1.getD []).length = (i2.getD []).length)
    (htot : totalCurrentValue (i1.getD []) ≤ totalCurrentValue (i2.getD [])) :
    emergencyFundMonthsPlanner t i1 ≤ emergencyFundMonthsPlanner t i2 := by
  rcases t with _ | ts
  · simp [emergencyFundMonthsPlanner]
  · simp only [emergencyFundMonthsPlanner]
    by_cases hts : ts = []
    · simp [hts]
    · rw [if_neg hts, if_neg hts]
      by_cases hme : monthlyExpenses ts ≤ 0
      · simp [hme]
      · rw [if_neg hme, if_neg hme]
        push_neg at hme
        have hliq := liquidAssets_mono (by norm_num : (0:ℚ) ≤ 1 / 2) hlen htot
        exact div_le_div_of_nonneg_right hliq hme.le

lemma investmentContribution_congr {i1 i2 : Option (List Holding)}
    (hlen : (i1.getD []).length = (i2.getD []).length) :
    investmentContribution i1 = investmentContribution i2 := by
  rcases i1 with _ | l1 <;> rcases i2 with _ | l2 <;>
      simp only [investmentContribution, Option.getD] at *
  · have hl2 : l2 = [] := List.length_eq_zero.mp hlen.symm
    simp [hl2]
  · have hl1 : l1 = [] := List.length_eq_zero.mp hlen
    simp [hl1]
  · by_cases h1 : l1 = []
    · have h2 : l2 = [] := by
        apply List.length_eq_zero.mp
        rw [← hlen, h1]
        rfl
      simp [h1, h2]
    · have h2 : l2 ≠ [] := by
        intro hc
        apply h1
        apply List.length_eq_zero.mp
        rw [hlen, hc]
        rfl
      rw [if_neg h1, if_neg h2]
      simp only [holdingCountScore, if_neg h1, if_neg h2, hlen]

/-- C2: the Financial Health Score is monotonic non-decreasing in the
emergency-fund coverage: holding the transactions, budget and goals fixed,
two investment inputs that differ only in yielding a larger liquid-asset
total (same holding count, larger total current value) give a score at least
as large for the larger input. -/
theorem c2_health_monotone_in_liquid_assets (cm : String) (t : Option (List Transaction))
    (b : Option Budget) (g : List Goal) (i1 i2 : Option (List Holding))
    (hlen : (i1.getD []).length = (i2.getD []).length)
    (htot : totalCurrentValue (i1.getD []) ≤ totalCurrentValue (i2.getD [])) :
    financialHealthScore cm t b i1 g ≤ financialHealthScore cm t b i2 g := by
  have hmonths := plannerMonths_mono t hlen htot
  have htier := emergencyTier_mono hmonths
  have hinv := investmentContribution_congr hlen
  unfold financialHealthScore
  rw [hinv]
  exact min_le_min (le_refl 100) (by linarith)

/-- A scenario holding worth 1000 under the `current_value` key. -/
def wSmall : Holding := ⟨"AAA", some 1000, none, none, none⟩

/-- A scenario holding worth 9000 under the `current_value` key. -/
def wLarge : Holding := ⟨"AAA", some 9000, none, none, none⟩

/-- One concrete expense transaction used by the witnesses. -/
def wExpense : Transaction := ⟨"2025-01", -1000, "Food", "market"⟩

/-- Witness for C2 at a concrete input: one 1000-expense month, a single
holding growing from 1000 to 9000 in current value. -/
theorem c2_health_monotone_witness :
    financialHealthScore "2025-01" (some [wExpense]) none (some [wSmall]) [] ≤
      financialHealthScore "2025-01" (some [wExpense]) none (some [wLarge]) [] :=
  c2_health_monotone_in_liquid_assets "2025-01" (some [wExpense]) none []
    (some [wSmall]) (some [wLarge]) (by decide)
    (by norm_num [totalCurrentValue, wSmall, wLarge, cv])

lemma volContribution_bounds (t : Option (List Transaction)) :
    0 ≤ volContribution t ∧ volContribution t ≤ 25 := by
  rcases t with _ | ts
  · simp [volContribution]
  · simp only [volContribution]
    split_ifs with h
    · norm_num
    · constructor
      · exact le_min (by norm_num)
          (mul_nonneg (incomeVolatility_nonneg (some ts)) (by norm_num))
      · exact min_le_left _ _

lemma liqTerm_bounds (t : Option (List Transaction)) (i : Option (List Holding)) :
    0 ≤ min (25:ℝ) ((liquidityRisk t i : ℝ) * 25) ∧
      min (25:ℝ) ((liquidityRisk t i : ℝ) * 25) ≤ 25 := by
  constructor
  · refine le_min (by norm_num) (mul_nonneg ?_ (by norm_num))
    exact_mod_cast liquidityRisk_nonneg t i
  · exact min_le_left _ _

lemma concContribution_bounds (i : Option (List Holding)) :
    0 ≤ concContribution i ∧ concContribution i ≤ 25 := by
  rcases i with _ | l
  · simp [concContribution]
  · simp only [concContribution]
    constructor
    · refine le_min (by norm_num) (mul_nonneg ?_ (by norm_num))
      exact_mod_cast concentrationRisk_nonneg l
    · exact min_le_left _ _

lemma budContribution_bounds (cm : String) (b : Option Budget)
    (t : Option (List Transaction)) :
    0 ≤ budContribution cm b t ∧ budContribution cm b t ≤ 25 := by
  rcases b with _ | bb <;> rcases t with _ | ts <;> simp only [budContribution]
  · norm_num
  · norm_num
  · norm_num
  · constructor
    · refine le_min (by norm_num) (mul_nonneg ?_ (by norm_num))
      exact_mod_cast budgetRisk_nonneg cm (some bb)
    · exact min_le_left _ _

lemma incomeVolatility_empty : incomeVolatility (some []) = 0 := by
  simp [incomeVolatility, monthlyIncomeList]

/-- C1 (amended): the Overall Risk Score always lies in [0, 100]; whenever a
transaction frame is present (`transactions is not None`) it equals the
spec's formula — the clamped sum of the four capped-at-25 contributions
(income volatility×100, liquidity factor×25, concentration×25,
budget-overrun ratio×25).  When the frame is absent the source skips the
budget-overrun contribution even though a budget may be present, which is
what the counterexample exhibits. -/
theorem c1_risk_score_amended (cm : String) (t : Option (List Transaction))
    (b : Option Budget) (i : Option (List Holding)) (g : List Goal) :
    (0 ≤ overallRiskScore cm t b i g ∧ overallRiskScore cm t b i g ≤ 100) ∧
    (∀ ts, t = some ts → overallRiskScore cm t b i g = specRiskScore cm t b i g) := by
  constructor
  · obtain ⟨hv0, hv25⟩ := volContribution_bounds t
    obtain ⟨hl0, hl25⟩ := liqTerm_bounds t i
    obtain ⟨hc0, hc25⟩ := concContribution_bounds i
    obtain ⟨hb0, hb25⟩ := budContribution_bounds cm b t
    unfold overallRiskScore
    constructor
    · exact le_min (by norm_num) (by linarith)
    · exact le_trans (min_le_left _ _) (le_refl 100)
  · rintro ts rfl
    unfold overallRiskScore specRiskScore
    have hvol : volContribution (some ts) = min 25 (incomeVolatility (some ts) * 100) := by
      simp only [volContribution]
      split_ifs with h
      · subst h
        rw [incomeVolatility_empty]
        norm_num
      · rfl
    have hconc : concContribution i =
        min 25 ((concentrationRisk (i.getD []) : ℝ) * 25) := by
      rcases i with _ | l
      · simp [concContribution, concentrationRisk]
      · rfl
    have hbud : budContribution cm b (some ts) =
        min 25 ((budgetRisk cm b : ℝ) * 25) := by
      rcases b with _ | bb
      · simp [budContribution, budgetRisk]
      · rfl
    rw [hvol, hconc, hbud]

/-- The counterexample budget: one Food category at 150% used in 2025-01. -/
def cexBudget : Budget := ⟨[("2025-01", ⟨[("Food", ⟨some 150⟩)]⟩)]⟩

/-- C1 (counterexample to the claim as stated): with no transaction frame
but a fully overrun budget, the source's score is 25 (liquidity only) while
the claimed sum of four contributions is 50 — the budget-overrun
contribution is dropped. -/
theorem c1_risk_score_claim_cex :
    overallRiskScore "2025-01" none (some cexBudget) none [] = 25 ∧
    specRiskScore "2025-01" none (some cexBudget) none [] = 50 ∧
    overallRiskScore "2025-01" none (some cexBudget) none [] ≠
      specRiskScore "2025-01" none (some cexBudget) none [] := by
  have hliq : liquidityRisk none none = 1 := by
    norm_num [liquidityRisk, emergencyFundMonthsRisk]
  have hbud : budgetRisk "2025-01" (some cexBudget) = 1 := by
    norm_num [budgetRisk, cexBudget, List.lookup]
  have h1 : overallRiskScore "2025-01" none (some cexBudget) none [] = 25 := by
    unfold overallRiskScore
    rw [hliq]
    simp only [volContribution, concContribution, budContribution]
    norm_num
  have h2 : specRiskScore "2025-01" none (some cexBudget) none [] = 50 := by
    unfold specRiskScore
    rw [hliq, hbud]
    simp only [incomeVolatility, Option.getD, concentrationRisk]
    norm_num
  exact ⟨h1, h2, by rw [h1, h2]; norm_num⟩

/-- C9: the risk-assessment module is query-content-independent — two states
with identical context but different `user_query` strings receive the same
`analysis_results["risk_assessment"]` entry, and that entry is the full
comprehensive analysis, which carries all six sub-analyses (score,
categories, vulnerabilities, stress tests, mitigation strategies, insurance
estimate) as fields of `RiskAnalysis`. -/
theorem c9_query_independence (cm : String) (s : FinanceAgentState) (q : String) :
    (riskToolCall cm { s with user_query := q }).analysis_results =
      (riskToolCall cm s).analysis_results ∧
    (riskToolCall cm s).analysis_results =
      setEntry s.analysis_results "risk_assessment"
        (.riskAnalysis (comprehensiveRiskAnalysis cm s.context.transactions
          s.context.budget s.context.investments s.context.goals s.user_query)) :=
  ⟨rfl, rfl⟩

/-- A concrete empty-context state for the duplicate-invocation scenario. -/
def qState : FinanceAgentState := initialState "What risks do I face?" []

/-- C7 (counterexample to the claim as stated): invoking the risk tool twice
on one state leaves `"risk_assessment"` in `tools_used` twice, not once. -/
theorem c7_idempotence_claim_cex :
    (riskToolCall "2025-01" (riskToolCall "2025-01" qState)).tools_used =
      ["risk_assessment", "risk_assessment"] ∧
    List.count "risk_assessment"
      ((riskToolCall "2025-01" (riskToolCall "2025-01" qState)).tools_used) ≠ 1 := by
  have h : (riskToolCall "2025-01" (riskToolCall "2025-01" qState)).tools_used =
      ["risk_assessment", "risk_assessment"] := rfl
  refine ⟨h, ?_⟩
  rw [h]
  decide

/-- On the data-present path the investment analyzer appends its name once
and leaves the context untouched. -/
lemma investmentToolCall_data (s : FinanceAgentState) (l : List Holding)
    (hinv : s.context.investments = some l) (hne : l ≠ []) :
    (investmentToolCall s).tools_used = s.tools_used ++ ["investment_analyzer"] ∧
    (investmentToolCall s).context = s.context := by
  cases l with
  | nil => exact absurd rfl hne
  | cons x xs =>
    unfold investmentToolCall
    rw [hinv]
    exact ⟨rfl, rfl⟩

/-- On the no-data path the investment analyzer leaves `tools_used` and the
context untouched. -/
lemma investmentToolCall_nodata (s : FinanceAgentState)
    (h : s.context.investments.getD [] = []) :
    (investmentToolCall s).tools_used = s.tools_used ∧
    (investmentToolCall s).context = s.context := by
  rcases hinv : s.context.investments with _ | l
  · unfold investmentToolCall
    rw [hinv]
    exact ⟨rfl, rfl⟩
  · have hl : l = [] := by
      rw [hinv] at h
      exact h
    subst hl
    unfold investmentToolCall
    rw [hinv]
    exact ⟨rfl, rfl⟩

/-- C7 (amended): neither module deduplicates `tools_used` — each append
that executes is unconditional.  Invoking the risk tool twice on one state
appends its name twice (count +2); invoking the investment analyzer twice
appends its name twice when investment data is present, and not at all when
it is absent (the no-data early return never reaches the append) — so a
double invocation never leaves the name in `tools_used` exactly once beyond
what the state already held. -/
theorem c7_duplicate_append_amended (cm : String) (s : FinanceAgentState) :
    ((riskToolCall cm (riskToolCall cm s)).tools_used =
        s.tools_used ++ ["risk_assessment", "risk_assessment"] ∧
      List.count "risk_assessment" ((riskToolCall cm (riskToolCall cm s)).tools_used) =
        List.count "risk_assessment" s.tools_used + 2) ∧
    (s.context.investments.getD [] ≠ [] →
      (investmentToolCall (investmentToolCall s)).tools_used =
        s.tools_used ++ ["investment_analyzer", "investment_analyzer"] ∧
      List.count "investment_analyzer"
          ((investmentToolCall (investmentToolCall s)).tools_used) =
        List.count "investment_analyzer" s.tools_used + 2) ∧
    (s.context.investments.getD [] = [] →
      (investmentToolCall (investmentToolCall s)).tools_used = s.tools_used) := by
  refine ⟨⟨?_, ?_⟩, ?_, ?_⟩
  · have h : (riskToolCall cm (riskToolCall cm s)).tools_used =
        (s.tools_used ++ ["risk_assessment"]) ++ ["risk_assessment"] := rfl
    rw [h, List.append_assoc]
    rfl
  · have h : (riskToolCall cm (riskToolCall cm s)).tools_used =
        (s.tools_used ++ ["risk_assessment"]) ++ ["risk_assessment"] := rfl
    rw [h]
    simp [List.count_append]
  · intro hne
    rcases hinv : s.context.investments with _ | l
    · rw [hinv] at hne
      simp at hne
    · have hl : l ≠ [] := by
        rw [hinv] at hne
        simpa using hne
      have h1 := investmentToolCall_data s l hinv hl
      have hinv2 : (investmentToolCall s).context.investments = some l := by
        rw [h1.2, hinv]
      have h2 := investmentToolCall_data (investmentToolCall s) l hinv2 hl
      constructor
      · rw [h2.1, h1.1, List.append_assoc]
        rfl
      · rw [h2.1, h1.1]
        simp [List.count_append]
  · intro h
    have h1 := investmentToolCall_nodata s h
    have h3 : (investmentToolCall s).context.investments.getD [] = [] := by
      rw [h1.2]
      exact h
    have h2 := investmentToolCall_nodata (investmentToolCall s) h3
    rw [h2.1, h1.1]

/-- The Scenario C state: the investments query with an empty context. -/
def c5State : FinanceAgentState := initialState "How are my investments performing?" []

/-- C5 (counterexample to the claim as stated): on the no-investments path
the module stores the error payload but does NOT append its own name to
`tools_used` — it returns before the append. -/
theorem c5_no_data_claim_cex :
    (investmentToolCall c5State).analysis_results =
      [("investment_analyzer", .invError "No investment data available")] ∧
    (investmentToolCall c5State).tools_used = [] ∧
    ¬ "investment_analyzer" ∈ (investmentToolCall c5State).tools_used := by
  refine ⟨rfl, rfl, ?_⟩
  intro hmem
  have h : (investmentToolCall c5State).tools_used = [] := rfl
  rw [h] at hmem
  cases hmem

/-- C5 (amended): with falsy investments the module stores the
`{"error": "No investment data available"}` payload under its own key and
returns the state without raising — the workflow can continue — but it
leaves `tools_used` (and the response) untouched instead of registering
itself. -/
theorem c5_no_data_amended (s : FinanceAgentState)
    (h : s.context.investments.getD [] = []) :
    (investmentToolCall s).analysis_results =
      setEntry s.analysis_results "investment_analyzer"
        (.invError "No investment data available") ∧
    (investmentToolCall s).tools_used = s.tools_used ∧
    (investmentToolCall s).response = s.response := by
  rcases hinv : s.context.investments with _ | l
  · unfold investmentToolCall
    rw [hinv]
    exact ⟨rfl, rfl, rfl⟩
  · have hl : l = [] := by
      rw [hinv] at h
      exact h
    subst hl
    unfold investmentToolCall
    rw [hinv]
    exact ⟨rfl, rfl, rfl⟩

/-- Witness for C5 at the Scenario C state (no investments in context). -/
theorem c5_no_data_amended_witness :
    (investmentToolCall c5State).analysis_results =
      setEntry c5State.analysis_results "investment_analyzer"
        (.invError "No investment data available") ∧
    (investmentToolCall c5State).tools_used = c5State.tools_used ∧
    (investmentToolCall c5State).response = c5State.response :=
  c5_no_data_amended c5State rfl

/-- A partial state in which the investment module had already run before
the workflow raised. -/
def c6Partial : FinanceAgentState :=
  { messages := []
    user_query := "q"
    intent := "investment_inquiry"
    context := ⟨none, none, none, []⟩
    tools_used := ["investment_analyzer"]
    analysis_results := [("investment_analyzer", .invAnalysis .summary [wSmall])]
    response := "" }

/-- C6 (counterexample to the claim as stated): when the workflow raises,
`process_query` does return an `"ERROR"` envelope, but its `tools_used` and
`analysis_results` are rebuilt empty — the partial results of modules that
already ran are discarded, not preserved. -/
theorem c6_error_envelope_claim_cex :
    (processQuery (fun _ => .failed "LLM timeout" c6Partial) "q" []).intent = "ERROR" ∧
    c6Partial.tools_used = ["investment_analyzer"] ∧
    (processQuery (fun _ => .failed "LLM timeout" c6Partial) "q" []).tools_used = [] ∧
    (processQuery (fun _ => .failed "LLM timeout" c6Partial) "q" []).tools_used ≠
      c6Partial.tools_used ∧
    (processQuery (fun _ => .failed "LLM timeout" c6Partial) "q" []).analysis_results ≠
      c6Partial.analysis_results := by
  refine ⟨rfl, rfl, rfl, ?_, ?_⟩
  · intro hc
    have h : (processQuery (fun _ => .failed "LLM timeout" c6Partial) "q" []).tools_used
        = [] := rfl
    rw [h] at hc
    simp [c6Partial] at hc
  · intro hc
    have h : (processQuery (fun _ => .failed "LLM timeout" c6Partial) "q"
        []).analysis_results = [] := rfl
    rw [h] at hc
    simp [c6Partial] at hc

/-- C6 (amended): when the workflow run raises, `process_query` returns an
envelope (never propagates) with intent `"ERROR"`, a non-empty canned
response wrapping the exception message, the conversation history including
the new user message — and with `tools_used` and `analysis_results` reset to
empty, discarding whatever modules had already computed. -/
theorem c6_error_envelope_amended (run : FinanceAgentState → WorkflowOutcome)
    (q : String) (hist : List Message) (msg : String) (p : FinanceAgentState)
    (h : run (initialState q hist) = .failed msg p) :
    processQuery run q hist =
      { response := "I encountered an error processing your request: " ++ msg
        intent := "ERROR"
        tools_used := []
        analysis_results := []
        conversation_history := hist ++ [.human q] } ∧
    (processQuery run q hist).response ≠ "" := by
  have hpq : processQuery run q hist =
      { response := "I encountered an error processing your request: " ++ msg
        intent := "ERROR"
        tools_used := []
        analysis_results := []
        conversation_history := hist ++ [.human q] } := by
    unfold processQuery
    dsimp only
    rw [h]
    rfl
  refine ⟨hpq, ?_⟩
  rw [hpq]
  intro hc
  have hlen := congrArg String.length hc
  rw [String.length_append] at hlen
  have h48 : ("I encountered an error processing your request: " : String).length = 48 := rfl
  rw [h48] at hlen
  simp at hlen

/-- Witness for C6 at a concrete erroring run. -/
theorem c6_error_envelope_witness :
    processQuery (fun _ => .failed "boom" c6Partial) "q" [] =
      { response := "I encountered an error processing your request: " ++ "boom"
        intent := "ERROR"
        tools_used := []
        analysis_results := []
        conversation_history := [] ++ [.human "q"] } ∧
    (processQuery (fun _ => .failed "boom" c6Partial) "q" []).response ≠ "" :=
  c6_error_envelope_amended (fun _ => .failed "boom" c6Partial) "q" [] "boom" c6Partial rfl

/-- The Scenario B holdings as written in the spec, values under the
`market_value` key. -/
def mAAA : Holding := ⟨"AAA", none, some 9000, none, none⟩

/-- Second Scenario B holding, `market_value` 1000. -/
def mBBB : Holding := ⟨"BBB", none, some 1000, none, none⟩

/-- The Scenario B holdings with the values under the `current_value` key
the risk module actually reads. -/
def cAAA : Holding := ⟨"AAA", some 9000, none, none, none⟩

/-- Second holding with `current_value` 1000. -/
def cBBB : Holding := ⟨"BBB", some 1000, none, none, none⟩

/-- C8: the risk module reads `inv.get("current_value", 0)`, so on the
Scenario B portfolio — whose values sit under `market_value`, the key the
repository's data files and every other module use — concentration risk
evaluates to 0 (not 0.9) and the Diversification Score to 80 (only the
fewer-than-5-holdings deduction fires, not the >40% one).  With the same
numbers under `current_value` the formulas do produce 0.9 and 50, which is
what the spec's scenario describes. -/
theorem c8_concentration_key_mismatch :
    concentrationRisk [mAAA, mBBB] = 0 ∧
    divScoreOf (analyzePortfolioDiversification [mAAA, mBBB]) = some 80 ∧
    concentrationRisk [cAAA, cBBB] = 9 / 10 ∧
    divScoreOf (analyzePortfolioDiversification [cAAA, cBBB]) = some 50 := by
  refine ⟨?_, ?_, ?_, ?_⟩
  · norm_num [concentrationRisk, totalCurrentValue, maxCurrentValue, qListMax, cv, mAAA, mBBB]
  · have hne : ([mAAA, mBBB] : List Holding) ≠ [] := by simp
    unfold analyzePortfolioDiversification
    rw [if_neg hne]
    simp only [divScoreOf]
    norm_num [maxPositionPct, totalCurrentValue, qListMax, cv, mAAA, mBBB]
  · norm_num [concentrationRisk, totalCurrentValue, maxCurrentValue, qListMax, cv, cAAA, cBBB]
    simp
  · have hne : ([cAAA, cBBB] : List Holding) ≠ [] := by simp
    unfold analyzePortfolioDiversification
    rw [if_neg hne]
    simp only [divScoreOf]
    norm_num [maxPositionPct, totalCurrentValue, qListMax, cv, cAAA, cBBB]

end FinanceSpec
